import Mathlib

/-
Verification of the icehot-manager-suite backend (src/index.js, latest
revision) against its natural-language specification.  The relational
store is modelled as explicit Lean state (lists of rows); MySQL string
comparison is modelled with the server default collation
utf8mb4_0900_ai_ci, which compares strings case- and accent-insensitively
(both for `=` and for `LIKE`).  JavaScript strings are modelled over the
precomposed (NFC) Latin repertoire used by the application, so the JS
`normalize("NFD")` + combining-mark-strip pipeline is modelled as a
per-character accent-stripping map.
-/

namespace Icehot

/-- JavaScript runtime values as they occur in JSON request bodies:
null, strings, numbers, booleans, plus NaN (which arises from Number
coercions).  An absent object key (undefined) is modelled as
`Option.none` at each use site.  Numbers are restricted to the integers,
which covers every value the endpoints manipulate. -/
inductive JVal where
  | vnull
  | vnan
  | vstr (s : String)
  | vnum (n : Int)
  | vbool (b : Bool)
  deriving DecidableEq

/-- Strips the accent from the precomposed Latin letters occurring in
Brazilian place names, leaving every other character unchanged.  Models
the JS pipeline normalize("NFD") followed by removal of the combining
marks U+0300..U+036F, restricted to NFC input. -/
def deaccentChar (c : Char) : Char :=
  match c with
  | 'á' | 'à' | 'â' | 'ã' | 'ä' | 'å' => 'a'
  | 'é' | 'è' | 'ê' | 'ë' => 'e'
  | 'í' | 'ì' | 'î' | 'ï' => 'i'
  | 'ó' | 'ò' | 'ô' | 'õ' | 'ö' => 'o'
  | 'ú' | 'ù' | 'û' | 'ü' => 'u'
  | 'ç' => 'c'
  | 'ñ' => 'n'
  | 'Á' | 'À' | 'Â' | 'Ã' | 'Ä' | 'Å' => 'A'
  | 'É' | 'È' | 'Ê' | 'Ë' => 'E'
  | 'Í' | 'Ì' | 'Î' | 'Ï' => 'I'
  | 'Ó' | 'Ò' | 'Ô' | 'Õ' | 'Ö' => 'O'
  | 'Ú' | 'Ù' | 'Û' | 'Ü' => 'U'
  | 'Ç' => 'C'
  | 'Ñ' => 'N'
  | _ => c

/-- Lower-cases the ASCII letters and the precomposed accented Latin
letters (the repertoire of the application's inputs).  Models both the
JS toLowerCase() and the SQL LOWER() on utf8mb4 data. -/
def lowerChar (c : Char) : Char :=
  match c with
  | 'Á' => 'á' | 'À' => 'à' | 'Â' => 'â' | 'Ã' => 'ã' | 'Ä' => 'ä' | 'Å' => 'å'
  | 'É' => 'é' | 'È' => 'è' | 'Ê' => 'ê' | 'Ë' => 'ë'
  | 'Í' => 'í' | 'Ì' => 'ì' | 'Î' => 'î' | 'Ï' => 'ï'
  | 'Ó' => 'ó' | 'Ò' => 'ò' | 'Ô' => 'ô' | 'Õ' => 'õ' | 'Ö' => 'ö'
  | 'Ú' => 'ú' | 'Ù' => 'ù' | 'Û' => 'û' | 'Ü' => 'ü'
  | 'Ç' => 'ç' | 'Ñ' => 'ñ'
  | _ => c.toLower

/-- Upper-cases the ASCII letters and the precomposed accented Latin
letters.  Models both the JS toUpperCase() and the SQL UPPER(). -/
def upperChar (c : Char) : Char :=
  match c with
  | 'á' => 'Á' | 'à' => 'À' | 'â' => 'Â' | 'ã' => 'Ã' | 'ä' => 'Ä' | 'å' => 'Å'
  | 'é' => 'É' | 'è' => 'È' | 'ê' => 'Ê' | 'ë' => 'Ë'
  | 'í' => 'Í' | 'ì' => 'Ì' | 'î' => 'Î' | 'ï' => 'Ï'
  | 'ó' => 'Ó' | 'ò' => 'Ò' | 'ô' => 'Ô' | 'õ' => 'Õ' | 'ö' => 'Ö'
  | 'ú' => 'Ú' | 'ù' => 'Ù' | 'û' => 'Û' | 'ü' => 'Ü'
  | 'ç' => 'Ç' | 'ñ' => 'Ñ'
  | _ => c.toUpper

/-- Maps a character function over a string via its character list. -/
def mapStr (f : Char → Char) (s : String) : String :=
  String.mk (s.data.map f)

/-- Whitespace characters trimmed by JS String.prototype.trim, on the
application's repertoire. -/
def isWsChar (c : Char) : Bool :=
  c == ' ' || c == '\t' || c == '\n' || c == '\r'

/-- JS String.prototype.trim. -/
def jsTrim (s : String) : String :=
  String.mk (((s.data.dropWhile isWsChar).reverse.dropWhile isWsChar).reverse)

/-- JS toLowerCase on the application's character repertoire. -/
def jsLower (s : String) : String := mapStr lowerChar s

/-- JS toUpperCase on the application's character repertoire. -/
def jsUpper (s : String) : String := mapStr upperChar s

/-- Drops leading and trailing space characters from a character list. -/
def trimSpaces (l : List Char) : List Char :=
  ((l.dropWhile (· == ' ')).reverse.dropWhile (· == ' ')).reverse

/-- SQL TRIM(): removes leading and trailing spaces only. -/
def sqlTrim (s : String) : String := String.mk (trimSpaces s.data)

/-- SQL LOWER() on utf8mb4 data. -/
def sqlLower (s : String) : String := mapStr lowerChar s

/-- SQL UPPER() on utf8mb4 data. -/
def sqlUpper (s : String) : String := mapStr upperChar s

/-- The utf8mb4_0900_ai_ci collation weight of a string: accents are
folded away and letters are lower-cased, so two strings compare equal
under the collation exactly when their folds are equal. -/
def collFold (s : String) : String :=
  String.mk (s.data.map (fun c => lowerChar (deaccentChar c)))

/-- SQL string equality under the server's accent- and case-insensitive
collation. -/
def sqlStrEq (a b : String) : Bool := collFold a == collFold b

/-- Tests whether the first character list is an initial segment of the
second. -/
def listLead : List Char → List Char → Bool
  | [], _ => true
  | _ :: _, [] => false
  | a :: as, b :: bs => a == b && listLead as bs

/-- SQL `nome LIKE 'pat%'` under the accent- and case-insensitive
collation: the collation fold of the pattern must be an initial segment
of the fold of the column value. -/
def likeLead (nome pat : String) : Bool :=
  listLead (collFold pat).data (collFold nome).data

/-- First n characters of a string (JS slice(0, n) on BMP text). -/
def strTake (s : String) (n : Nat) : String := String.mk (s.data.take n)

/-- Characters of a string from position n on (JS slice(n) on BMP text). -/
def strDrop (s : String) (n : Nat) : String := String.mk (s.data.drop n)

/-- Index of the first '/' in a string (JS indexOf), none if absent. -/
def slashIdx (s : String) : Option Nat := s.data.findIdx? (· == '/')

/-- Decides whether a substring occurs anywhere in a string. -/
def containsSub (hay needle : List Char) : Bool :=
  match hay with
  | [] => listLead needle []
  | _ :: t => listLead needle hay || containsSub t needle

/-- String-level substring test. -/
def strContainsSub (hay needle : String) : Bool :=
  containsSub hay.data needle.data

/-- JS String(x) conversion of a JVal. -/
def jvToString : JVal → String
  | .vnull => "null"
  | .vnan => "NaN"
  | .vstr s => s
  | .vnum n => toString n
  | .vbool b => if b then "true" else "false"

/-- JS String(x ?? ""): absent and null inputs become the empty string. -/
def jvCoalesceStr (input : Option JVal) : String :=
  match input with
  | none => ""
  | some .vnull => ""
  | some v => jvToString v

/-- JS truthiness of a possibly-absent value. -/
def truthy : Option JVal → Bool
  | none => false
  | some .vnull => false
  | some .vnan => false
  | some (.vstr s) => !(s == "")
  | some (.vnum n) => !(n == 0)
  | some (.vbool b) => b

/-- JS `x == null`, true for both undefined (absent) and null. -/
def isNullish : Option JVal → Bool
  | none => true
  | some .vnull => true
  | some _ => false

/-- Parses a character list of decimal digits, none when some character
is not a digit or the list is empty. -/
def digitsToNat? (l : List Char) : Option Nat :=
  match l with
  | [] => none
  | _ =>
    if l.all (·.isDigit) then
      some (l.foldl (fun a c => a * 10 + (c.toNat - 48)) 0)
    else none

/-- JS Number(s) on a string, restricted to integer literals: the empty
(trimmed) string is 0, an optionally signed digit string is its value,
and everything else is NaN (returned as none). -/
def jNumOfString (s : String) : Option Int :=
  let t := jsTrim s
  if t == "" then some 0
  else
    match t.data with
    | '-' :: rest => (digitsToNat? rest).map (fun n => -(n : Int))
    | '+' :: rest => (digitsToNat? rest).map (fun n => (n : Int))
    | l => (digitsToNat? l).map (fun n => (n : Int))

/-- JS Number(v) on a JVal; none models NaN. -/
def jNumOfVal : JVal → Option Int
  | .vnull => some 0
  | .vnan => none
  | .vstr s => jNumOfString s
  | .vnum n => some n
  | .vbool b => some (if b then 1 else 0)

/-- JS Number(x) on a possibly-absent value; Number(undefined) is NaN. -/
def jNumber : Option JVal → Option Int
  | none => none
  | some v => jNumOfVal v

/-- JS Number(v) returned as a JVal (a number or NaN). -/
def jNumberV (v : JVal) : JVal :=
  match jNumOfVal v with
  | some n => .vnum n
  | none => .vnan

/-- JS truthiness of a number-or-NaN: NaN and 0 are falsy. -/
def truthyNum : Option Int → Bool
  | none => false
  | some n => !(n == 0)

/-- normalizeName from src/index.js lines 76-82: NFD-decompose, strip
combining marks, lower-case, trim. -/
def normalizeName (s : String) : String :=
  jsTrim (jsLower (mapStr deaccentChar s))

/-- normalizeStatusToCode's token: String(input ?? "").trim().toLowerCase(). -/
def statusToken (input : Option JVal) : String :=
  jsLower (jsTrim (jvCoalesceStr input))

/-- normalizeStatusToCode from src/index.js lines 64-73; `statusToken`
is the local variable `raw`. -/
def normalizeStatusToCode (input : Option JVal) : Nat :=
  if statusToken input = "0" ∨ statusToken input = "ativo" then 0
  else if statusToken input = "1" ∨ statusToken input = "atendimento" then 1
  else if statusToken input = "2" ∨ statusToken input = "desativado" then 2
  else if statusToken input = "3" ∨ statusToken input = "deletado" then 3
  else 0

/-- A row of the cidades table. -/
structure City where
  id : Int
  nome : String
  uf : String
  deriving DecidableEq

/-- The cidades table together with its AUTO_INCREMENT counter. -/
structure CityStore where
  rows : List City
  nextId : Int
  deriving DecidableEq

/-- The two typed failures of the city resolver: AmbiguousCity (a plain
Error, mapped to 409 upstream) and CityCreationRequiresState (the
_badRequest-tagged Error, mapped to 400 upstream). -/
inductive CityErr where
  | ambiguous (msg : String)
  | needUF (msg : String)
  deriving DecidableEq

/-- Tier-1 row predicate of ensureCityByName (src/index.js lines 93-103):
LOWER(TRIM(nome)) = LOWER(TRIM(?)) and, when a UF was supplied,
UPPER(TRIM(uf)) = UPPER(TRIM(?)); both comparisons run under the
accent- and case-insensitive collation. -/
def tier1Match (uf : Option String) (nomeCidade : String) (r : City) : Bool :=
  match uf with
  | some u =>
    sqlStrEq (sqlLower (sqlTrim r.nome)) (sqlLower (sqlTrim nomeCidade)) &&
      sqlStrEq (sqlUpper (sqlTrim r.uf)) (sqlUpper (sqlTrim u))
  | none => sqlStrEq (sqlLower (sqlTrim r.nome)) (sqlLower (sqlTrim nomeCidade))

/-- Collation-order comparison used for ORDER BY nome. -/
def leChars : List Char → List Char → Bool
  | [], _ => true
  | _ :: _, [] => false
  | a :: as, b :: bs => if a < b then true else if b < a then false else leChars as bs

/-- ORDER BY nome under the collation. -/
def leNome (a b : City) : Bool := leChars (collFold a.nome).data (collFold b.nome).data

/-- Tier-2 candidate query of ensureCityByName (src/index.js lines
115-126): rows whose nome is LIKE 'prefix%' (optionally filtered by UF),
ORDER BY nome LIMIT 20. -/
def tier2Candidates (uf : Option String) (pref : String) (rows : List City) : List City :=
  let base : List City :=
    match uf with
    | some u =>
      rows.filter (fun r =>
        sqlStrEq (sqlUpper (sqlTrim r.uf)) (sqlUpper (sqlTrim u)) && likeLead r.nome pref)
    | none => rows.filter (fun r => likeLead r.nome pref)
  (base.mergeSort leNome).take 20

/-- The tier-1 ambiguity message (src/index.js lines 106-110). -/
def ambMsg1 (uf : Option String) (nomeCidade : String) : String :=
  match uf with
  | some u => "Cidade ambígua: existe mais de uma \"" ++ nomeCidade ++ "/" ++ u ++ "\"."
  | none =>
    "Cidade ambígua para \"" ++ nomeCidade ++ "\". Especifique UF (ex.: \"" ++
      nomeCidade ++ "/UF\")."

/-- The tier-2 ambiguity message (src/index.js lines 130-134). -/
def ambMsg2 (uf : Option String) (nomeCidade : String) : String :=
  match uf with
  | some u => "Cidade ambígua: existe mais de uma \"" ++ nomeCidade ++ "/" ++ u ++ "\"."
  | none => "Cidade ambígua para \"" ++ nomeCidade ++ "\". Especifique UF."

/-- The effective UF of ensureCityByName (src/index.js line 90):
`ufRaw ? String(ufRaw).trim().toUpperCase() : null`.  A trimmed-empty
result is collapsed to none because the empty string is falsy at every
later use of the variable. -/
def effUF (ufRaw : Option String) : Option String :=
  match ufRaw with
  | none => none
  | some s =>
    if s = "" then none
    else
      let u := jsUpper (jsTrim s)
      if u = "" then none else some u

/-- ensureCityByName from src/index.js lines 85-154.  The store is
threaded explicitly; the second component of the result is the cidades
table after the call (the source throws before reaching the INSERT, so
every error path leaves the table unchanged). -/
def ensureCityByName (st : CityStore) (nomeCidadeRaw : String) (ufRaw : Option String) :
    Except CityErr (Option City) × CityStore :=
  let nomeCidade := jsTrim nomeCidadeRaw
  if nomeCidade = "" then (.ok none, st)
  else
    let norm := normalizeName nomeCidade
    let uf := effUF ufRaw
    match st.rows.filter (tier1Match uf nomeCidade) with
    | [r] => (.ok (some r), st)
    | [] =>
      let pref := strTake nomeCidade 4
      let cand := tier2Candidates uf pref st.rows
      match cand.filter (fun r => normalizeName r.nome == norm) with
      | [r] => (.ok (some r), st)
      | [] =>
        match uf with
        | none => (.error (.needUF "UF obrigatória para criar nova cidade."), st)
        | some u =>
          let newCity : City := ⟨st.nextId, nomeCidade, u⟩
          (.ok (some newCity), ⟨st.rows ++ [newCity], st.nextId + 1⟩)
      | _ => (.error (.ambiguous (ambMsg2 uf nomeCidade)), st)
    | _ => (.error (.ambiguous (ambMsg1 uf nomeCidade)), st)

/-- A row of the usuarios_equipamentos association table. -/
structure Vinculo where
  usuario_id : Int
  maquina_id : Int
  agua_gelada : Nat
  agua_quente : Nat
  agua_pet : Nat
  created_at : Nat
  updated_at : Nat
  deriving DecidableEq

/-- The destructured argument object of replaceUserEquipModules
(src/index.js line 160).  Absent fields are none. -/
structure ModArgs where
  usuario_id : Option JVal := none
  maquina_id : Option JVal := none
  agua_gelada : Option JVal := none
  agua_quente : Option JVal := none
  agua_pet : Option JVal := none
  aspersor : Option JVal := none
  deriving DecidableEq

/-- replaceUserEquipModules from src/index.js lines 158-198, with the
store's transaction made explicit.  `failDel` / `failIns` inject a store
failure into the DELETE or the INSERT statement.  The transaction's
working state becomes visible only at COMMIT; on a failure the catch
block ROLLBACKs and rethrows, so the committed table (second component)
is the original one and the first component is the propagated error.
The source also coerces `aspersor`, but the INSERT does not use it (the
column does not exist). -/
def replaceModulesRun (vincs : List Vinculo) (a : ModArgs) (now : Nat)
    (failDel failIns : Bool) : Except String Unit × List Vinculo :=
  match jNumber a.usuario_id, jNumber a.maquina_id with
  | some uid, some mid =>
    if uid = 0 ∨ mid = 0 then (.ok (), vincs)
    else
      let gel : Nat := if truthy a.agua_gelada then 1 else 0
      let que : Nat := if truthy a.agua_quente then 1 else 0
      let pet : Nat := if truthy a.agua_pet then 1 else 0
      if failDel then (.error "db_error", vincs)
      else
        let afterDelete := vincs.filter (fun v => !(v.maquina_id == mid))
        if failIns then (.error "db_error", vincs)
        else (.ok (), afterDelete ++ [⟨uid, mid, gel, que, pet, now, now⟩])
  | _, _ => (.ok (), vincs)

/-- replaceUserEquipModules on the failure-free path (the function used
by the POST and PUT handlers when the store does not fail). -/
def replaceUserEquipModules (vincs : List Vinculo) (a : ModArgs) (now : Nat) :
    List Vinculo :=
  (replaceModulesRun vincs a now false false).2

/-- A row of the maquinas table, with the columns touched by the PUT
handler. -/
structure Maq where
  id : Int
  cidade_id : Option Int
  tipo_id : Option Int
  nome : String
  serialNumber : String
  numeroNotaFiscal : Option String
  numeroSerieEquipamento : Option String
  endereco : Option String
  numero : Option String
  bairro : Option String
  cep : Option String
  complemento : Option String
  data_instalacao : String
  status : Nat
  observacao : Option String
  created_at : Nat
  updated_at : Nat
  deriving DecidableEq

/-- The JSON body of a PUT /equipamentos/:id request, destructured as in
src/index.js lines 687-709.  none models an absent key; `extraKeys`
counts any keys of the body beyond the destructured ones (they only
matter for Object.keys(body).length). -/
structure Body where
  tipo_id : Option JVal := none
  nome : Option JVal := none
  serialNumber : Option JVal := none
  numeroNotaFiscal : Option JVal := none
  numeroSerieEquipamento : Option JVal := none
  cidade : Option JVal := none
  cidade_nome : Option JVal := none
  uf : Option JVal := none
  cep : Option JVal := none
  bairro : Option JVal := none
  endereco : Option JVal := none
  numero : Option JVal := none
  complemento : Option JVal := none
  data_instalacao : Option JVal := none
  status : Option JVal := none
  observacao : Option JVal := none
  usuario_id : Option JVal := none
  agua_gelada : Option JVal := none
  agua_quente : Option JVal := none
  agua_pet : Option JVal := none
  aspersor : Option JVal := none
  extraKeys : Nat := 0

/-- 1 when the key is present in the body (including with value null). -/
def countSome (o : Option JVal) : Nat := if o.isSome then 1 else 0

/-- Object.keys(body).length. -/
def bodyKeyCount (b : Body) : Nat :=
  countSome b.tipo_id + countSome b.nome + countSome b.serialNumber +
    countSome b.numeroNotaFiscal + countSome b.numeroSerieEquipamento +
    countSome b.cidade + countSome b.cidade_nome + countSome b.uf +
    countSome b.cep + countSome b.bairro + countSome b.endereco +
    countSome b.numero + countSome b.complemento + countSome b.data_instalacao +
    countSome b.status + countSome b.observacao + countSome b.usuario_id +
    countSome b.agua_gelada + countSome b.agua_quente + countSome b.agua_pet +
    countSome b.aspersor + b.extraKeys

/-- The missing-required-field check of the full update
(src/index.js lines 739-744). -/
def missingFields (b : Body) : List String :=
  (if isNullish b.tipo_id then ["tipo_id"] else []) ++
    (if truthy b.nome then [] else ["nome"]) ++
    (if truthy b.serialNumber then [] else ["serialNumber"]) ++
    (if truthy b.data_instalacao then [] else ["data_instalacao"]) ++
    (if isNullish b.status then ["status"] else [])

/-- The string a present JS value contributes as a SQL parameter. -/
def paramStr (o : Option JVal) : String := jvToString (o.getD (.vstr ""))

/-- The `x || null` pattern used for the optional text columns of the
UPDATE: a truthy value is stored (stringified), everything else becomes
NULL. -/
def orNullStr (o : Option JVal) : Option String :=
  if truthy o then some (paramStr o) else none

/-- JS `a ?? b`. -/
def jvCoalesce (a : Option JVal) (dflt : JVal) : JVal :=
  match a with
  | none => dflt
  | some .vnull => dflt
  | some v => v

/-- Updates the first row satisfying p (UPDATE ... WHERE id = ? LIMIT 1)
and reports the number of affected rows. -/
def updateFirst {α : Type} (p : α → Bool) (f : α → α) : List α → List α × Nat
  | [] => ([], 0)
  | r :: rs =>
    if p r then (f r :: rs, 1)
    else ((r :: (updateFirst p f rs).1), (updateFirst p f rs).2)

/-- The whole store touched by PUT /equipamentos/:id. -/
structure DB where
  maquinas : List Maq
  cities : CityStore
  vinculos : List Vinculo

/-- The client-visible outcomes of PUT /equipamentos/:id. -/
inductive PutRes where
  | invalidId
  | statusOnlyOk
  | notFound
  | missing (fs : List String)
  | duplicateSerial
  | cityBadRequest (msg : String)
  | cityConflict (msg : String)
  | fullOk
  deriving DecidableEq

/-- The observacao of the target row as read by the SELECT at
src/index.js lines 805-813 (curRows[0]?.observacao ?? null). -/
def curObservacao (db : DB) (id : Int) : Option String :=
  match db.maquinas.find? (fun r => r.id == id) with
  | some r => r.observacao
  | none => none

/-- The row produced by the UPDATE maquinas statement (src/index.js
lines 863-906): every listed column is overwritten from the payload,
id and created_at are untouched. -/
def updatedRow (b : Body) (now statusCode : Nat) (cidadeId : Option Int)
    (observacaoFinal : Option String) (r : Maq) : Maq :=
  { r with
    cidade_id := cidadeId
    tipo_id := jNumber b.tipo_id
    nome := paramStr b.nome
    serialNumber := paramStr b.serialNumber
    numeroNotaFiscal := orNullStr b.numeroNotaFiscal
    numeroSerieEquipamento := orNullStr b.numeroSerieEquipamento
    endereco := orNullStr b.endereco
    numero := orNullStr b.numero
    bairro := orNullStr b.bairro
    cep := orNullStr b.cep
    complemento := orNullStr b.complemento
    data_instalacao := paramStr b.data_instalacao
    status := statusCode
    observacao := observacaoFinal
    updated_at := now }

/-- The argument object of the replaceUserEquipModules call at
src/index.js lines 914-924: usuario_id is passed through Number(), the
machine id is the route id, and the three water flags are forwarded. -/
def modArgsOfBody (b : Body) (id : Int) : ModArgs :=
  { usuario_id := some (jNumberV (b.usuario_id.getD .vnull))
    maquina_id := some (.vnum id)
    agua_gelada := b.agua_gelada
    agua_quente := b.agua_quente
    agua_pet := b.agua_pet }

/-- The tail of the full update after city resolution (src/index.js
lines 803-932): read the current observacao, merge it (the JSON merge of
lines 815-861 is the parameter `mergeObs`, which no claim depends on),
run the UPDATE, and re-reconcile the association only when the
usuario_id key was present and not null. -/
def putUpdatePhase (mergeObs : Option String → Option JVal → Option JVal → Option String)
    (db : DB) (id : Int) (b : Body) (now : Nat) (statusCode : Nat)
    (cidadeId : Option Int) (cities' : CityStore) : PutRes × DB :=
  let upd := updateFirst (fun r => r.id == id)
    (updatedRow b now statusCode cidadeId
      (mergeObs (curObservacao db id) b.observacao b.aspersor)) db.maquinas
  if upd.2 = 0 then (.notFound, { db with cities := cities' })
  else
    (.fullOk,
      { maquinas := upd.1
        cities := cities'
        vinculos :=
          if isNullish b.usuario_id then db.vinculos
          else replaceUserEquipModules db.vinculos (modArgsOfBody b id) now })

/-- The city-resolution block of the full update (src/index.js lines
771-801): derive the city text and UF from the payload, split on the
first '/', call ensureCityByName when the text is non-empty, and map its
typed failures to the 400/409 responses. -/
def putCityPhase (mergeObs : Option String → Option JVal → Option JVal → Option String)
    (db : DB) (id : Int) (b : Body) (now : Nat) (statusCode : Nat) : PutRes × DB :=
  let cidadeTexto := jsTrim (jvToString (jvCoalesce b.cidade (jvCoalesce b.cidade_nome (.vstr ""))))
  let ufFinal0 : Option String :=
    let s := if truthy b.uf then jvToString (b.uf.getD .vnull) else ""
    let u := jsUpper (jsTrim s)
    if u = "" then none else some u
  if cidadeTexto = "" then putUpdatePhase mergeObs db id b now statusCode none db.cities
  else
    let split : String × Option String :=
      match slashIdx cidadeTexto with
      | some p =>
        if 0 < p then
          let n := jsTrim (strTake cidadeTexto p)
          let u := jsUpper (jsTrim (strDrop cidadeTexto (p + 1)))
          (n, if u = "" then ufFinal0 else some u)
        else (cidadeTexto, ufFinal0)
      | none => (cidadeTexto, ufFinal0)
    match ensureCityByName db.cities split.1 split.2 with
    | (.error (.needUF msg), _) => (.cityBadRequest msg, db)
    | (.error (.ambiguous msg), _) => (.cityConflict msg, db)
    | (.ok cityOpt, cities') =>
      putUpdatePhase mergeObs db id b now statusCode (cityOpt.map (·.id)) cities'

/-- PUT /equipamentos/:id from src/index.js lines 679-941.  `id` is the
numeric route parameter (the handler rejects non-positive ids); `now`
models NOW().  The handler first takes the status-only fast path when
the body has exactly one key and it is status, then validates, checks
serial uniqueness (across every row but the target, with no status
filter), resolves the city, updates the row, and finally reconciles the
association when usuario_id is present and not null. -/
def putEquipamento (mergeObs : Option String → Option JVal → Option JVal → Option String)
    (db : DB) (id : Int) (b : Body) (now : Nat) : PutRes × DB :=
  if id ≤ 0 then (.invalidId, db)
  else if bodyKeyCount b = 1 ∧ b.status.isSome then
    let code := normalizeStatusToCode b.status
    let upd := updateFirst (fun r => r.id == id)
      (fun r => { r with status := code, updated_at := now }) db.maquinas
    if upd.2 = 0 then (.notFound, db)
    else (.statusOnlyOk, { db with maquinas := upd.1 })
  else if missingFields b ≠ [] then (.missing (missingFields b), db)
  else
    let statusCode := normalizeStatusToCode b.status
    let dups := db.maquinas.filter (fun m =>
      sqlStrEq (sqlTrim m.serialNumber) (sqlTrim (paramStr b.serialNumber)) && !(m.id == id))
    if dups ≠ [] then (.duplicateSerial, db)
    else putCityPhase mergeObs db id b now statusCode

/-! Helper lemmas. -/

theorem updateFirst_split {α : Type} (p : α → Bool) (f : α → α)
    (pre : List α) (r : α) (post : List α)
    (hpre : ∀ x ∈ pre, p x = false) (hr : p r = true) :
    updateFirst p f (pre ++ r :: post) = (pre ++ f r :: post, 1) := by
  induction pre with
  | nil => simp [updateFirst, hr]
  | cons a t ih =>
    have ha : p a = false := hpre a (by simp)
    have ht : ∀ x ∈ t, p x = false := fun x hx => hpre x (by simp [hx])
    simp [updateFirst, ha, ih ht]

theorem find?_split {α : Type} (p : α → Bool) (pre : List α) (r : α) (post : List α)
    (hpre : ∀ x ∈ pre, p x = false) (hr : p r = true) :
    (pre ++ r :: post).find? p = some r := by
  induction pre with
  | nil => simp [List.find?, hr]
  | cons a t ih =>
    have ha : p a = false := hpre a (by simp)
    have ht : ∀ x ∈ t, p x = false := fun x hx => hpre x (by simp [hx])
    simp [List.find?, ha, ih ht]

theorem replaceUserEquipModules_noop (vincs : List Vinculo) (a : ModArgs) (now : Nat)
    (h : truthyNum (jNumber a.usuario_id) = false) :
    replaceUserEquipModules vincs a now = vincs := by
  unfold replaceUserEquipModules replaceModulesRun
  rcases hju : jNumber a.usuario_id with _ | u
  · rcases jNumber a.maquina_id with _ | m <;> simp
  · rcases jNumber a.maquina_id with _ | m
    · simp
    · have hu : u = 0 := by
        rw [hju] at h
        simpa [truthyNum] using h
      simp [hu]

/-! Claim theorems. -/

/-- Claim C9: normalizeStatusToCode maps, after trimming and lowercasing,
"0"/"ativo" to 0, "1"/"atendimento" to 1, "2"/"desativado" to 2,
"3"/"deletado" to 3, and every other input — including absent and null
input — to 0; it is total, so there is no error path. -/
theorem normalizeStatus_mapping :
    normalizeStatusToCode none = 0 ∧
    normalizeStatusToCode (some .vnull) = 0 ∧
    (∀ v : Option JVal, statusToken v = "0" ∨ statusToken v = "ativo" →
      normalizeStatusToCode v = 0) ∧
    (∀ v : Option JVal, normalizeStatusToCode v = 1 ↔
      (statusToken v = "1" ∨ statusToken v = "atendimento")) ∧
    (∀ v : Option JVal, normalizeStatusToCode v = 2 ↔
      (statusToken v = "2" ∨ statusToken v = "desativado")) ∧
    (∀ v : Option JVal, normalizeStatusToCode v = 3 ↔
      (statusToken v = "3" ∨ statusToken v = "deletado")) ∧
    (∀ v : Option JVal,
      statusToken v ≠ "0" → statusToken v ≠ "ativo" → statusToken v ≠ "1" →
      statusToken v ≠ "atendimento" → statusToken v ≠ "2" → statusToken v ≠ "desativado" →
      statusToken v ≠ "3" → statusToken v ≠ "deletado" →
      normalizeStatusToCode v = 0) := by
  refine ⟨rfl, rfl, ?_, ?_, ?_, ?_, ?_⟩ <;> intro v <;>
    unfold normalizeStatusToCode <;>
    generalize statusToken v = s <;>
    intros <;>
    split_ifs with h1 h2 h3 h4 <;>
    try simp_all
  all_goals
    first
      | (rcases h1 with rfl | rfl <;> first | decide | simp_all)
      | (rcases h2 with rfl | rfl <;> first | decide | simp_all)
      | (rcases h3 with rfl | rfl <;> first | decide | simp_all)
      | (rcases h4 with rfl | rfl <;> first | decide | simp_all)

/-- Witness for C9 at concrete inputs. -/
theorem normalizeStatus_mapping_witness :
    normalizeStatusToCode (some (.vstr " DESATIVADO ")) = 2 ∧
    normalizeStatusToCode (some (.vstr "banana")) = 0 :=
  ⟨(normalizeStatus_mapping.2.2.2.2.1 (some (.vstr " DESATIVADO "))).mpr (by decide),
    normalizeStatus_mapping.2.2.2.2.2.2 (some (.vstr "banana")) (by decide) (by decide)
      (by decide) (by decide) (by decide) (by decide) (by decide) (by decide)⟩

/-- Claim C1: when both ids coerce to nonzero numbers, a successful
replaceUserEquipModules leaves exactly one association row for the
equipment — carrying the supplied owner id and the flags coerced to
0/1 — no matter how many rows existed before, and replaying the
identical call is idempotent. -/
theorem replaceModules_exactly_one_row_idempotent
    (vincs : List Vinculo) (a : ModArgs) (u m : Int) (now : Nat)
    (hu : jNumber a.usuario_id = some u) (hm : jNumber a.maquina_id = some m)
    (hu0 : u ≠ 0) (hm0 : m ≠ 0) :
    (replaceUserEquipModules vincs a now).filter (fun v => v.maquina_id == m) =
      [⟨u, m, if truthy a.agua_gelada then 1 else 0, if truthy a.agua_quente then 1 else 0,
        if truthy a.agua_pet then 1 else 0, now, now⟩] ∧
    replaceUserEquipModules (replaceUserEquipModules vincs a now) a now =
      replaceUserEquipModules vincs a now := by
  have hne : ¬(u = 0 ∨ m = 0) := by
    rintro (h | h) <;> [exact hu0 h; exact hm0 h]
  have hrun : replaceUserEquipModules vincs a now =
      vincs.filter (fun v => !(v.maquina_id == m)) ++
        [⟨u, m, if truthy a.agua_gelada then 1 else 0, if truthy a.agua_quente then 1 else 0,
          if truthy a.agua_pet then 1 else 0, now, now⟩] := by
    unfold replaceUserEquipModules replaceModulesRun
    rw [hu, hm]
    simp [hne]
  have hkill : ∀ (l : List Vinculo),
      (l.filter (fun v => !(v.maquina_id == m))).filter (fun v => v.maquina_id == m) = [] := by
    intro l
    rw [List.filter_eq_nil_iff]
    intro x hx
    have := (List.mem_filter.mp hx).2
    simp_all
  have hkeep : ∀ (l : List Vinculo),
      (l.filter (fun v => !(v.maquina_id == m))).filter (fun v => !(v.maquina_id == m)) =
        l.filter (fun v => !(v.maquina_id == m)) := by
    intro l
    rw [List.filter_filter]
    exact List.filter_congr (fun x _ => by rw [Bool.and_self])
  constructor
  · rw [hrun, List.filter_append, hkill]
    simp
  · rw [hrun]
    unfold replaceUserEquipModules replaceModulesRun
    rw [hu, hm]
    simp only [if_neg hne, Bool.false_eq_true, if_false]
    rw [List.filter_append, hkeep]
    simp

/-- Witness for C1: two stale rows for equipment 1 collapse to the single
fresh row, and the call is idempotent. -/
theorem replaceModules_exactly_one_row_idempotent_witness :
    (replaceUserEquipModules [⟨9, 1, 0, 0, 0, 1, 1⟩, ⟨3, 1, 1, 1, 1, 2, 2⟩]
        ⟨some (.vnum 5), some (.vnum 1), some (.vbool true), none, some (.vnum 1), none⟩
        7).filter (fun v => v.maquina_id == 1) = [⟨5, 1, 1, 0, 1, 7, 7⟩] ∧
    replaceUserEquipModules
        (replaceUserEquipModules [⟨9, 1, 0, 0, 0, 1, 1⟩, ⟨3, 1, 1, 1, 1, 2, 2⟩]
          ⟨some (.vnum 5), some (.vnum 1), some (.vbool true), none, some (.vnum 1), none⟩ 7)
        ⟨some (.vnum 5), some (.vnum 1), some (.vbool true), none, some (.vnum 1), none⟩ 7 =
      replaceUserEquipModules [⟨9, 1, 0, 0, 0, 1, 1⟩, ⟨3, 1, 1, 1, 1, 2, 2⟩]
        ⟨some (.vnum 5), some (.vnum 1), some (.vbool true), none, some (.vnum 1), none⟩ 7 :=
  replaceModules_exactly_one_row_idempotent _ _ 5 1 7 rfl rfl (by decide) (by decide)

/-- Claim C3: with both ids nonzero, if the DELETE or the INSERT inside
the transaction fails, the transaction rolls back, the failure is
propagated, and the committed association table is exactly the one from
before the call. -/
theorem replaceModules_rollback_atomic
    (vincs : List Vinculo) (a : ModArgs) (u m : Int) (now : Nat)
    (failDel failIns : Bool)
    (hu : jNumber a.usuario_id = some u) (hm : jNumber a.maquina_id = some m)
    (hu0 : u ≠ 0) (hm0 : m ≠ 0) (hfail : failDel = true ∨ failIns = true) :
    replaceModulesRun vincs a now failDel failIns = (.error "db_error", vincs) := by
  have hne : ¬(u = 0 ∨ m = 0) := by
    rintro (h | h) <;> [exact hu0 h; exact hm0 h]
  unfold replaceModulesRun
  rw [hu, hm]
  rcases hfail with h | h <;> cases failDel <;> simp_all

/-- Witness for C3: an insert failure leaves the two pre-existing rows
untouched and surfaces the error. -/
theorem replaceModules_rollback_atomic_witness :
    replaceModulesRun [⟨9, 1, 0, 0, 0, 1, 1⟩, ⟨3, 2, 1, 1, 1, 2, 2⟩]
        ⟨some (.vnum 5), some (.vnum 1), some (.vbool true), none, none, none⟩ 7 false true =
      (.error "db_error", [⟨9, 1, 0, 0, 0, 1, 1⟩, ⟨3, 2, 1, 1, 1, 2, 2⟩]) :=
  replaceModules_rollback_atomic _ _ 5 1 7 false true rfl rfl (by decide) (by decide)
    (Or.inr rfl)

/-- Claim C5: a non-empty city name matching no stored city in either
lookup tier fails with CityCreationRequiresState and creates nothing when
no state code is supplied; with a state code it inserts a new city row
and returns its id, and an identical second call returns the same id
without creating a second row. -/
theorem resolveCity_creation_requires_state_roundtrip
    (st : CityStore) (nameRaw ufRaw U : String)
    (hname : ¬ jsTrim nameRaw = "")
    (h1 : ∀ r ∈ st.rows,
      sqlStrEq (sqlLower (sqlTrim r.nome)) (sqlLower (sqlTrim (jsTrim nameRaw))) = false)
    (h2 : ∀ r ∈ st.rows, (normalizeName r.nome == normalizeName (jsTrim nameRaw)) = false)
    (hU : effUF (some ufRaw) = some U) :
    ensureCityByName st nameRaw none
        = (.error (.needUF "UF obrigatória para criar nova cidade."), st) ∧
    ensureCityByName st nameRaw (some ufRaw)
        = (.ok (some ⟨st.nextId, jsTrim nameRaw, U⟩),
            ⟨st.rows ++ [⟨st.nextId, jsTrim nameRaw, U⟩], st.nextId + 1⟩) ∧
    ensureCityByName ⟨st.rows ++ [⟨st.nextId, jsTrim nameRaw, U⟩], st.nextId + 1⟩ nameRaw
        (some ufRaw)
        = (.ok (some ⟨st.nextId, jsTrim nameRaw, U⟩),
            ⟨st.rows ++ [⟨st.nextId, jsTrim nameRaw, U⟩], st.nextId + 1⟩) := by
  have hfilterNone : st.rows.filter (tier1Match none (jsTrim nameRaw)) = [] := by
    rw [List.filter_eq_nil_iff]
    intro r hr
    simp [tier1Match, h1 r hr]
  have hfilterU : st.rows.filter (tier1Match (some U) (jsTrim nameRaw)) = [] := by
    rw [List.filter_eq_nil_iff]
    intro r hr
    simp [tier1Match, h1 r hr]
  have hcand : ∀ (uf : Option String),
      (tier2Candidates uf (strTake (jsTrim nameRaw) 4) st.rows).filter
        (fun r => normalizeName r.nome == normalizeName (jsTrim nameRaw)) = [] := by
    intro uf
    rw [List.filter_eq_nil_iff]
    intro r hr
    have hmem : r ∈ st.rows := by
      rcases uf with _ | u <;>
        simp only [tier2Candidates] at hr <;>
        exact (List.mem_filter.mp (List.mem_mergeSort.mp (List.mem_of_mem_take hr))).1
    simp [h2 r hmem]
  refine ⟨?_, ?_, ?_⟩
  · simp only [ensureCityByName]
    rw [if_neg hname]
    rw [show effUF (none : Option String) = none from rfl]
    rw [hfilterNone, hcand none]
  · simp only [ensureCityByName]
    rw [if_neg hname, hU]
    rw [hfilterU, hcand (some U)]
  · simp only [ensureCityByName]
    rw [if_neg hname, hU]
    have hnew : tier1Match (some U) (jsTrim nameRaw) ⟨st.nextId, jsTrim nameRaw, U⟩ = true := by
      simp [tier1Match, sqlStrEq]
    have hfl : (st.rows ++ [(⟨st.nextId, jsTrim nameRaw, U⟩ : City)]).filter
        (tier1Match (some U) (jsTrim nameRaw)) = [⟨st.nextId, jsTrim nameRaw, U⟩] := by
      rw [List.filter_append, hfilterU]
      simp [hnew]
    rw [hfl]
/-- Witness for C5 on the empty store with an unknown town. -/
theorem resolveCity_creation_witness :
    ensureCityByName ⟨[], 1⟩ "Unknown Town" none
        = (.error (.needUF "UF obrigatória para criar nova cidade."), ⟨[], 1⟩) ∧
    ensureCityByName ⟨[], 1⟩ "Unknown Town" (some "XX")
        = (.ok (some ⟨1, "Unknown Town", "XX"⟩), ⟨[⟨1, "Unknown Town", "XX"⟩], 2⟩) ∧
    ensureCityByName ⟨[⟨1, "Unknown Town", "XX"⟩], 2⟩ "Unknown Town" (some "XX")
        = (.ok (some ⟨1, "Unknown Town", "XX"⟩), ⟨[⟨1, "Unknown Town", "XX"⟩], 2⟩) :=
  resolveCity_creation_requires_state_roundtrip ⟨[], 1⟩ "Unknown Town" "XX" "XX"
    (by decide) (by simp) (by simp) rfl

/-- Counterexample to C4 as frozen: in a store state where a city row
for Sao Paulo/SP exists (here twice), both resolveCity calls fail with
AmbiguousCity instead of succeeding, so the claim's premise — mere
existence of a matching row — does not suffice. -/
theorem resolveCity_sao_paulo_duplicates_cx :
    (ensureCityByName ⟨[⟨1, "São Paulo", "SP"⟩, ⟨2, "São Paulo", "SP"⟩], 3⟩
        "São Paulo" (some "SP")).1
      = .error (.ambiguous "Cidade ambígua: existe mais de uma \"São Paulo/SP\".") ∧
    (ensureCityByName ⟨[⟨1, "São Paulo", "SP"⟩, ⟨2, "São Paulo", "SP"⟩], 3⟩
        "sao paulo" (some "sp")).1
      = .error (.ambiguous "Cidade ambígua: existe mais de uma \"sao paulo/SP\".") :=
  ⟨rfl, rfl⟩

/-- Claim C4 (amended): in every store where exactly one city row
matches Sao Paulo/SP under the tier-1 comparison (trimmed, case- and
accent-insensitive name and state code), both resolveCity calls succeed
and return that row's id. -/
theorem resolveCity_accent_case_insensitive_unique (st : CityStore) (r : City)
    (h : st.rows.filter (tier1Match (some "SP") "São Paulo") = [r]) :
    ensureCityByName st "São Paulo" (some "SP") = (.ok (some r), st) ∧
    ensureCityByName st "sao paulo" (some "sp") = (.ok (some r), st) := by
  have hp : tier1Match (some "SP") "sao paulo" = tier1Match (some "SP") "São Paulo" := by
    funext x
    rfl
  constructor
  · simp only [ensureCityByName]
    rw [if_neg (by decide)]
    rw [show effUF (some "SP") = some "SP" from rfl,
      show jsTrim "São Paulo" = "São Paulo" from rfl, h]
  · simp only [ensureCityByName]
    rw [if_neg (by decide)]
    rw [show effUF (some "sp") = some "SP" from rfl,
      show jsTrim "sao paulo" = "sao paulo" from rfl, hp, h]

/-- Witness for amended C4 on a one-row store. -/
theorem resolveCity_accent_case_insensitive_unique_witness :
    ensureCityByName ⟨[⟨7, "São Paulo", "SP"⟩], 8⟩ "São Paulo" (some "SP")
        = (.ok (some ⟨7, "São Paulo", "SP"⟩), ⟨[⟨7, "São Paulo", "SP"⟩], 8⟩) ∧
    ensureCityByName ⟨[⟨7, "São Paulo", "SP"⟩], 8⟩ "sao paulo" (some "sp")
        = (.ok (some ⟨7, "São Paulo", "SP"⟩), ⟨[⟨7, "São Paulo", "SP"⟩], 8⟩) :=
  resolveCity_accent_case_insensitive_unique ⟨[⟨7, "São Paulo", "SP"⟩], 8⟩
    ⟨7, "São Paulo", "SP"⟩ (by decide)

/-- Counterexample to C6 as frozen: with two identically named cities
in different states, the no-state-code failure message names neither
stored state code, so it does not name the conflicting city/state
pair. -/
theorem resolveCity_ambiguous_message_cx :
    (ensureCityByName ⟨[⟨1, "Springfield", "RS"⟩, ⟨2, "Springfield", "SC"⟩], 3⟩
        "Springfield" none).1
      = .error (.ambiguous
          "Cidade ambígua para \"Springfield\". Especifique UF (ex.: \"Springfield/UF\").") ∧
    strContainsSub
        "Cidade ambígua para \"Springfield\". Especifique UF (ex.: \"Springfield/UF\")."
        "RS" = false ∧
    strContainsSub
        "Cidade ambígua para \"Springfield\". Especifique UF (ex.: \"Springfield/UF\")."
        "SC" = false :=
  ⟨rfl, by decide, by decide⟩

/-- Claim C6 (amended): with at least two stored rows matching the
queried name case-insensitively (trimmed), resolveCity without a state
code fails with AmbiguousCity whose message names the queried city name
and asks for a state code, and resolveCity with a state code matching
exactly one row succeeds with that row's id. -/
theorem resolveCity_ambiguous_and_uf_disambiguation
    (st : CityStore) (name u U : String) (r : City)
    (hT : jsTrim name = name) (hne : ¬ name = "")
    (hci : 2 ≤ (st.rows.filter (fun c =>
        sqlLower (sqlTrim c.nome) == sqlLower (sqlTrim name))).length)
    (hU : effUF (some u) = some U)
    (hone : st.rows.filter (tier1Match (some U) name) = [r]) :
    ensureCityByName st name none = (.error (.ambiguous (ambMsg1 none name)), st) ∧
    ensureCityByName st name (some u) = (.ok (some r), st) := by
  have hmono : (st.rows.filter (fun c =>
      sqlLower (sqlTrim c.nome) == sqlLower (sqlTrim name))).Sublist
      (st.rows.filter (tier1Match none name)) := by
    apply List.monotone_filter_right
    intro c hc
    have hceq : sqlLower (sqlTrim c.nome) = sqlLower (sqlTrim name) := by
      simpa using hc
    simp [tier1Match, sqlStrEq, hceq]
  have hlen : 2 ≤ (st.rows.filter (tier1Match none name)).length :=
    le_trans hci hmono.length_le
  constructor
  · simp only [ensureCityByName]
    rw [hT, if_neg hne]
    rw [show effUF (none : Option String) = none from rfl]
    rcases hfl : st.rows.filter (tier1Match none name) with _ | ⟨x, _ | ⟨y, t⟩⟩
    · rw [hfl] at hlen
      simp at hlen
    · rw [hfl] at hlen
      simp at hlen
    · rfl
  · simp only [ensureCityByName]
    rw [hT, if_neg hne, hU, hone]

/-- Witness for amended C6 on the two-row Springfield store. -/
theorem resolveCity_ambiguous_and_uf_disambiguation_witness :
    ensureCityByName ⟨[⟨1, "Springfield", "RS"⟩, ⟨2, "Springfield", "SC"⟩], 3⟩
        "Springfield" none
      = (.error (.ambiguous (ambMsg1 none "Springfield")),
          ⟨[⟨1, "Springfield", "RS"⟩, ⟨2, "Springfield", "SC"⟩], 3⟩) ∧
    ensureCityByName ⟨[⟨1, "Springfield", "RS"⟩, ⟨2, "Springfield", "SC"⟩], 3⟩
        "Springfield" (some "rs")
      = (.ok (some ⟨1, "Springfield", "RS"⟩),
          ⟨[⟨1, "Springfield", "RS"⟩, ⟨2, "Springfield", "SC"⟩], 3⟩) :=
  resolveCity_ambiguous_and_uf_disambiguation
    ⟨[⟨1, "Springfield", "RS"⟩, ⟨2, "Springfield", "SC"⟩], 3⟩ "Springfield" "rs" "RS"
    ⟨1, "Springfield", "RS"⟩ rfl (by decide) (by decide) rfl (by decide)


/-- Number() is idempotent: coercing an already-coerced value changes
nothing. -/
theorem jNumOfVal_jNumberV (v : JVal) : jNumOfVal (jNumberV v) = jNumOfVal v := by
  unfold jNumberV
  rcases h : jNumOfVal v <;> simp [jNumOfVal]

/-- When the payload's usuario_id does not coerce to a nonzero number,
the update phase leaves the association table untouched. -/
theorem putUpdatePhase_vinculos
    (mergeObs : Option String → Option JVal → Option JVal → Option String)
    (db : DB) (id : Int) (b : Body) (now : Nat) (sc : Nat)
    (cid : Option Int) (cs : CityStore)
    (h : truthyNum (jNumber b.usuario_id) = false) :
    (putUpdatePhase mergeObs db id b now sc cid cs).2.vinculos = db.vinculos := by
  unfold putUpdatePhase
  by_cases h1 : (updateFirst (fun r => r.id == id)
      (updatedRow b now sc cid
        (mergeObs (curObservacao db id) b.observacao b.aspersor)) db.maquinas).2 = 0
  · simp [h1]
  · simp only [if_neg h1]
    by_cases hn : isNullish b.usuario_id = true
    · simp [hn]
    · have hb : isNullish b.usuario_id = false := by
        rcases hx : isNullish b.usuario_id <;> simp_all
      simp only [hb, Bool.false_eq_true, if_false]
      apply replaceUserEquipModules_noop
      cases hbu : b.usuario_id with
      | none => simp [isNullish, hbu] at hb
      | some v =>
        rw [hbu] at h
        simp only [modArgsOfBody, hbu]
        simp only [jNumber] at h ⊢
        simpa [jNumOfVal_jNumberV] using h

/-- When the payload's usuario_id does not coerce to a nonzero number,
the city phase leaves the association table untouched. -/
theorem putCityPhase_vinculos
    (mergeObs : Option String → Option JVal → Option JVal → Option String)
    (db : DB) (id : Int) (b : Body) (now : Nat) (sc : Nat)
    (h : truthyNum (jNumber b.usuario_id) = false) :
    (putCityPhase mergeObs db id b now sc).2.vinculos = db.vinculos := by
  simp only [putCityPhase]
  by_cases h1 : jsTrim (jvToString (jvCoalesce b.cidade (jvCoalesce b.cidade_nome (.vstr "")))) = ""
  · rw [if_pos h1]
    exact putUpdatePhase_vinculos mergeObs db id b now sc none db.cities h
  · rw [if_neg h1]
    split
    · rfl
    · rfl
    · exact putUpdatePhase_vinculos mergeObs db id b now sc _ _ h
/-- Claim C2 (amended): on PUT /equipamentos/:id, an absent usuario_id
key leaves the association unchanged, and so does a present usuario_id
that is null, 0, or otherwise not coercible to a nonzero number — the
explicit null/0 does NOT clear the association in this revision (only
the older revision deleted it); the reconciler replaces the association
only for a nonzero numeric owner id. -/
theorem updateEquipment_falsy_owner_preserves_association
    (mergeObs : Option String → Option JVal → Option JVal → Option String)
    (db : DB) (id : Int) (b : Body) (now : Nat)
    (h : truthyNum (jNumber b.usuario_id) = false) :
    (putEquipamento mergeObs db id b now).2.vinculos = db.vinculos := by
  unfold putEquipamento
  split_ifs with h1 h2 h3
  · rfl
  · dsimp only
    split <;> rfl
  · rfl
  · dsimp only
    split
    · rfl
    · exact putCityPhase_vinculos mergeObs db id b now _ h

/-- Claim C7: a status-only payload updates exactly the status (to its
normalized code) and the modification timestamp of the first row with
the given id; every other column of that row, every other row, the city
table and the association table are unchanged. -/
theorem updateEquipment_status_only_frame
    (mergeObs : Option String → Option JVal → Option JVal → Option String)
    (db : DB) (id : Int) (v : JVal) (b : Body) (now : Nat)
    (pre post : List Maq) (r : Maq)
    (hid : 0 < id)
    (hs : b.status = some v) (hk : bodyKeyCount b = 1)
    (hdb : db.maquinas = pre ++ r :: post)
    (hpre : ∀ x ∈ pre, (x.id == id) = false)
    (hr : r.id = id) :
    putEquipamento mergeObs db id b now =
      (.statusOnlyOk,
        { db with maquinas :=
            pre ++ { r with status := normalizeStatusToCode (some v), updated_at := now }
              :: post }) := by
  unfold putEquipamento
  rw [if_neg (by omega)]
  rw [if_pos ⟨hk, by rw [hs]; rfl⟩]
  dsimp only
  rw [hdb, updateFirst_split _ _ pre r post hpre (by simp [hr])]
  simp [hs]
/-- The update phase never reports a duplicate serial. -/
theorem putUpdatePhase_ne_duplicateSerial
    (mergeObs : Option String → Option JVal → Option JVal → Option String)
    (db : DB) (id : Int) (b : Body) (now : Nat) (sc : Nat)
    (cid : Option Int) (cs : CityStore) :
    (putUpdatePhase mergeObs db id b now sc cid cs).1 ≠ .duplicateSerial := by
  unfold putUpdatePhase
  dsimp only
  split <;> simp

/-- The city phase never reports a duplicate serial. -/
theorem putCityPhase_ne_duplicateSerial
    (mergeObs : Option String → Option JVal → Option JVal → Option String)
    (db : DB) (id : Int) (b : Body) (now : Nat) (sc : Nat) :
    (putCityPhase mergeObs db id b now sc).1 ≠ .duplicateSerial := by
  unfold putCityPhase
  dsimp only
  split
  · exact putUpdatePhase_ne_duplicateSerial mergeObs db id b now sc none db.cities
  · split
    · simp
    · simp
    · exact putUpdatePhase_ne_duplicateSerial mergeObs db id b now sc _ _

/-- Claim C8 (amended): a validated full update on id X fails with
DuplicateSerial if and only if some row other than X — of any status,
Deleted included — has the same trimmed serial number under the store's
collation; the PUT duplicate check has no status filter, so serials held
only by Deleted equipment do block the update. -/
theorem updateEquipment_duplicate_serial_iff
    (mergeObs : Option String → Option JVal → Option JVal → Option String)
    (db : DB) (id : Int) (b : Body) (now : Nat)
    (hid : 0 < id)
    (hnso : ¬(bodyKeyCount b = 1 ∧ b.status.isSome = true))
    (hmf : missingFields b = []) :
    ((putEquipamento mergeObs db id b now).1 = .duplicateSerial ↔
      ∃ m ∈ db.maquinas,
        sqlStrEq (sqlTrim m.serialNumber) (sqlTrim (paramStr b.serialNumber)) = true ∧
          m.id ≠ id) := by
  have hiff : (db.maquinas.filter (fun m =>
      sqlStrEq (sqlTrim m.serialNumber) (sqlTrim (paramStr b.serialNumber)) &&
        !(m.id == id)) ≠ []) ↔
      ∃ m ∈ db.maquinas,
        sqlStrEq (sqlTrim m.serialNumber) (sqlTrim (paramStr b.serialNumber)) = true ∧
          m.id ≠ id := by
    rw [Ne, List.filter_eq_nil_iff]
    push_neg
    constructor
    · rintro ⟨m, hm, hp⟩
      refine ⟨m, hm, ?_⟩
      simpa [Bool.and_eq_true] using hp
    · rintro ⟨m, hm, hp⟩
      refine ⟨m, hm, ?_⟩
      simpa [Bool.and_eq_true] using hp
  unfold putEquipamento
  rw [if_neg (by omega), if_neg hnso, if_neg (by simp [hmf])]
  dsimp only
  by_cases hd : db.maquinas.filter (fun m =>
      sqlStrEq (sqlTrim m.serialNumber) (sqlTrim (paramStr b.serialNumber)) &&
        !(m.id == id)) = []
  · rw [if_neg (by simp [hd])]
    constructor
    · intro hcontr
      exact absurd hcontr (putCityPhase_ne_duplicateSerial mergeObs db id b now _)
    · intro hex
      exact absurd (hiff.mpr hex) (by simp [hd])
  · rw [if_pos hd]
    simp only [true_iff]
    exact hiff.mp hd
/-- Claim C10: a validated full update whose payload carries no
non-empty city text overwrites the stored row's city reference with
null, because cidadeId defaults to null and the UPDATE writes it
unconditionally. -/
theorem updateEquipment_clears_city_when_no_city_text
    (mergeObs : Option String → Option JVal → Option JVal → Option String)
    (db : DB) (id : Int) (b : Body) (now : Nat)
    (pre post : List Maq) (r : Maq)
    (hid : 0 < id)
    (hnso : ¬(bodyKeyCount b = 1 ∧ b.status.isSome = true))
    (hmf : missingFields b = [])
    (hdup : db.maquinas.filter (fun m =>
      sqlStrEq (sqlTrim m.serialNumber) (sqlTrim (paramStr b.serialNumber)) &&
        !(m.id == id)) = [])
    (hct : jsTrim (jvToString (jvCoalesce b.cidade (jvCoalesce b.cidade_nome (.vstr "")))) = "")
    (hdb : db.maquinas = pre ++ r :: post)
    (hpre : ∀ x ∈ pre, (x.id == id) = false)
    (hr : r.id = id) :
    (putEquipamento mergeObs db id b now).1 = .fullOk ∧
    (putEquipamento mergeObs db id b now).2.maquinas =
      pre ++ updatedRow b now (normalizeStatusToCode b.status) none
          (mergeObs r.observacao b.observacao b.aspersor) r :: post := by
  have hput : putEquipamento mergeObs db id b now =
      putCityPhase mergeObs db id b now (normalizeStatusToCode b.status) := by
    unfold putEquipamento
    rw [if_neg (by omega), if_neg hnso, if_neg (by simp [hmf])]
    dsimp only
    rw [if_neg (by simp [hdup])]
  have hcity : putCityPhase mergeObs db id b now (normalizeStatusToCode b.status) =
      putUpdatePhase mergeObs db id b now (normalizeStatusToCode b.status) none db.cities := by
    unfold putCityPhase
    dsimp only
    rw [if_pos hct]
  have hobs : curObservacao db id = r.observacao := by
    unfold curObservacao
    rw [hdb, find?_split _ pre r post hpre (by simp [hr])]
  have hupd : putUpdatePhase mergeObs db id b now (normalizeStatusToCode b.status) none
      db.cities =
      (.fullOk,
        { maquinas := pre ++ updatedRow b now (normalizeStatusToCode b.status) none
            (mergeObs r.observacao b.observacao b.aspersor) r :: post
          cities := db.cities
          vinculos :=
            if isNullish b.usuario_id then db.vinculos
            else replaceUserEquipModules db.vinculos (modArgsOfBody b id) now }) := by
    unfold putUpdatePhase
    rw [hobs, hdb, updateFirst_split _ _ pre r post hpre (by simp [hr])]
    simp
  rw [hput, hcity, hupd]
  exact ⟨rfl, rfl⟩
/-- Counterexample to C2 as frozen: a full update with usuario_id
explicitly null (and likewise 0) completes with fullOk yet the
association row survives, where the claim demands its removal. -/
theorem updateEquipment_null_owner_keeps_association_cx :
    (putEquipamento (fun c _ _ => c)
        ⟨[⟨1, some 7, some 2, "EQ-1", "SN-1", none, none, none, none, none, none, none,
            "2024-01-01", 0, some "x", 10, 10⟩], ⟨[], 1⟩, [⟨5, 1, 1, 0, 1, 10, 10⟩]⟩ 1
        { tipo_id := some (.vnum 2), nome := some (.vstr "EQ-1"),
          serialNumber := some (.vstr "SN-1"), data_instalacao := some (.vstr "2024-01-01"),
          status := some (.vstr "ativo"), usuario_id := some .vnull } 99).1 = .fullOk ∧
    (putEquipamento (fun c _ _ => c)
        ⟨[⟨1, some 7, some 2, "EQ-1", "SN-1", none, none, none, none, none, none, none,
            "2024-01-01", 0, some "x", 10, 10⟩], ⟨[], 1⟩, [⟨5, 1, 1, 0, 1, 10, 10⟩]⟩ 1
        { tipo_id := some (.vnum 2), nome := some (.vstr "EQ-1"),
          serialNumber := some (.vstr "SN-1"), data_instalacao := some (.vstr "2024-01-01"),
          status := some (.vstr "ativo"), usuario_id := some .vnull } 99).2.vinculos =
      [⟨5, 1, 1, 0, 1, 10, 10⟩] ∧
    (putEquipamento (fun c _ _ => c)
        ⟨[⟨1, some 7, some 2, "EQ-1", "SN-1", none, none, none, none, none, none, none,
            "2024-01-01", 0, some "x", 10, 10⟩], ⟨[], 1⟩, [⟨5, 1, 1, 0, 1, 10, 10⟩]⟩ 1
        { tipo_id := some (.vnum 2), nome := some (.vstr "EQ-1"),
          serialNumber := some (.vstr "SN-1"), data_instalacao := some (.vstr "2024-01-01"),
          status := some (.vstr "ativo"), usuario_id := some (.vnum 0) } 99).2.vinculos =
      [⟨5, 1, 1, 0, 1, 10, 10⟩] :=
  ⟨rfl, rfl, rfl⟩

/-- Witness for amended C2 at the null-owner payload. -/
theorem updateEquipment_falsy_owner_preserves_association_witness :
    (putEquipamento (fun c _ _ => c)
        ⟨[⟨1, some 7, some 2, "EQ-1", "SN-1", none, none, none, none, none, none, none,
            "2024-01-01", 0, some "x", 10, 10⟩], ⟨[], 1⟩, [⟨5, 1, 1, 0, 1, 10, 10⟩]⟩ 1
        { tipo_id := some (.vnum 2), nome := some (.vstr "EQ-1"),
          serialNumber := some (.vstr "SN-1"), data_instalacao := some (.vstr "2024-01-01"),
          status := some (.vstr "ativo"), usuario_id := some .vnull } 99).2.vinculos =
      [⟨5, 1, 1, 0, 1, 10, 10⟩] :=
  updateEquipment_falsy_owner_preserves_association (fun c _ _ => c)
    ⟨[⟨1, some 7, some 2, "EQ-1", "SN-1", none, none, none, none, none, none, none,
        "2024-01-01", 0, some "x", 10, 10⟩], ⟨[], 1⟩, [⟨5, 1, 1, 0, 1, 10, 10⟩]⟩ 1
    { tipo_id := some (.vnum 2), nome := some (.vstr "EQ-1"),
      serialNumber := some (.vstr "SN-1"), data_instalacao := some (.vstr "2024-01-01"),
      status := some (.vstr "ativo"), usuario_id := some .vnull } 99 rfl

/-- Witness for C7: only status (atendimento to 1) and updated_at
change. -/
theorem updateEquipment_status_only_frame_witness :
    putEquipamento (fun c _ _ => c)
        ⟨[⟨1, some 7, some 2, "EQ-1", "SN-1", none, none, none, none, none, none, none,
            "2024-01-01", 0, some "x", 10, 10⟩], ⟨[], 1⟩, [⟨5, 1, 1, 0, 1, 10, 10⟩]⟩ 1
        { status := some (.vstr "atendimento") } 99 =
      (.statusOnlyOk,
        ⟨[⟨1, some 7, some 2, "EQ-1", "SN-1", none, none, none, none, none, none, none,
            "2024-01-01", 1, some "x", 10, 99⟩], ⟨[], 1⟩, [⟨5, 1, 1, 0, 1, 10, 10⟩]⟩) :=
  updateEquipment_status_only_frame (fun c _ _ => c)
    ⟨[⟨1, some 7, some 2, "EQ-1", "SN-1", none, none, none, none, none, none, none,
        "2024-01-01", 0, some "x", 10, 10⟩], ⟨[], 1⟩, [⟨5, 1, 1, 0, 1, 10, 10⟩]⟩ 1
    (.vstr "atendimento") { status := some (.vstr "atendimento") } 99 []
    [] ⟨1, some 7, some 2, "EQ-1", "SN-1", none, none, none, none, none, none, none,
        "2024-01-01", 0, some "x", 10, 10⟩
    (by decide) rfl rfl rfl (by simp) rfl

/-- Counterexample to C8 as frozen: the payload serial SN-2 is carried
only by equipment 2, which is Deleted (status 3), yet the full update of
equipment 1 fails with DuplicateSerial. -/
theorem updateEquipment_deleted_serial_conflict_cx :
    (putEquipamento (fun c _ _ => c)
        ⟨[⟨1, some 7, some 2, "EQ-1", "SN-1", none, none, none, none, none, none, none,
            "2024-01-01", 0, some "x", 10, 10⟩,
          ⟨2, none, some 2, "EQ-2", "SN-2", none, none, none, none, none, none, none,
            "2023-01-01", 3, none, 10, 10⟩], ⟨[], 1⟩, []⟩ 1
        { tipo_id := some (.vnum 2), nome := some (.vstr "EQ-1"),
          serialNumber := some (.vstr "SN-2"), data_instalacao := some (.vstr "2024-01-01"),
          status := some (.vstr "ativo") } 99).1 = .duplicateSerial ∧
    ([⟨1, some 7, some 2, "EQ-1", "SN-1", none, none, none, none, none, none, none,
        "2024-01-01", 0, some "x", 10, 10⟩,
      ⟨2, none, some 2, "EQ-2", "SN-2", none, none, none, none, none, none, none,
        "2023-01-01", 3, none, 10, 10⟩] : List Maq).filter
        (fun m => sqlStrEq (sqlTrim m.serialNumber) (sqlTrim "SN-2") && !(m.id == 1)) =
      [⟨2, none, some 2, "EQ-2", "SN-2", none, none, none, none, none, none, none,
        "2023-01-01", 3, none, 10, 10⟩] :=
  ⟨rfl, rfl⟩

/-- Witness for amended C8 on the two-row store. -/
theorem updateEquipment_duplicate_serial_iff_witness :
    ((putEquipamento (fun c _ _ => c)
        ⟨[⟨1, some 7, some 2, "EQ-1", "SN-1", none, none, none, none, none, none, none,
            "2024-01-01", 0, some "x", 10, 10⟩,
          ⟨2, none, some 2, "EQ-2", "SN-2", none, none, none, none, none, none, none,
            "2023-01-01", 3, none, 10, 10⟩], ⟨[], 1⟩, []⟩ 1
        { tipo_id := some (.vnum 2), nome := some (.vstr "EQ-1"),
          serialNumber := some (.vstr "SN-2"), data_instalacao := some (.vstr "2024-01-01"),
          status := some (.vstr "ativo") } 99).1 = .duplicateSerial ↔
      ∃ m ∈ ([⟨1, some 7, some 2, "EQ-1", "SN-1", none, none, none, none, none, none, none,
            "2024-01-01", 0, some "x", 10, 10⟩,
          ⟨2, none, some 2, "EQ-2", "SN-2", none, none, none, none, none, none, none,
            "2023-01-01", 3, none, 10, 10⟩] : List Maq),
        sqlStrEq (sqlTrim m.serialNumber)
            (sqlTrim (paramStr (some (.vstr "SN-2")))) = true ∧ m.id ≠ 1) :=
  updateEquipment_duplicate_serial_iff (fun c _ _ => c)
    ⟨[⟨1, some 7, some 2, "EQ-1", "SN-1", none, none, none, none, none, none, none,
        "2024-01-01", 0, some "x", 10, 10⟩,
      ⟨2, none, some 2, "EQ-2", "SN-2", none, none, none, none, none, none, none,
        "2023-01-01", 3, none, 10, 10⟩], ⟨[], 1⟩, []⟩ 1
    { tipo_id := some (.vnum 2), nome := some (.vstr "EQ-1"),
      serialNumber := some (.vstr "SN-2"), data_instalacao := some (.vstr "2024-01-01"),
      status := some (.vstr "ativo") } 99 (by decide) (by decide) rfl

/-- Witness for C10: the stored city reference (7) is overwritten with
null. -/
theorem updateEquipment_clears_city_when_no_city_text_witness :
    (putEquipamento (fun c _ _ => c)
        ⟨[⟨1, some 7, some 2, "EQ-1", "SN-1", none, none, none, none, none, none, none,
            "2024-01-01", 0, some "x", 10, 10⟩], ⟨[], 1⟩, []⟩ 1
        { tipo_id := some (.vnum 2), nome := some (.vstr "EQ-1"),
          serialNumber := some (.vstr "SN-1"), data_instalacao := some (.vstr "2024-01-01"),
          status := some (.vstr "ativo") } 99).1 = .fullOk ∧
    (putEquipamento (fun c _ _ => c)
        ⟨[⟨1, some 7, some 2, "EQ-1", "SN-1", none, none, none, none, none, none, none,
            "2024-01-01", 0, some "x", 10, 10⟩], ⟨[], 1⟩, []⟩ 1
        { tipo_id := some (.vnum 2), nome := some (.vstr "EQ-1"),
          serialNumber := some (.vstr "SN-1"), data_instalacao := some (.vstr "2024-01-01"),
          status := some (.vstr "ativo") } 99).2.maquinas =
      [⟨1, none, some 2, "EQ-1", "SN-1", none, none, none, none, none, none, none,
          "2024-01-01", 0, some "x", 10, 99⟩] :=
  updateEquipment_clears_city_when_no_city_text (fun c _ _ => c)
    ⟨[⟨1, some 7, some 2, "EQ-1", "SN-1", none, none, none, none, none, none, none,
        "2024-01-01", 0, some "x", 10, 10⟩], ⟨[], 1⟩, []⟩ 1
    { tipo_id := some (.vnum 2), nome := some (.vstr "EQ-1"),
      serialNumber := some (.vstr "SN-1"), data_instalacao := some (.vstr "2024-01-01"),
      status := some (.vstr "ativo") } 99 [] []
    ⟨1, some 7, some 2, "EQ-1", "SN-1", none, none, none, none, none, none, none,
      "2024-01-01", 0, some "x", 10, 10⟩
    (by decide) (by decide) rfl rfl rfl rfl (by simp) rfl

end Icehot
